import Mathlib

/-
Verification of the Aforro portfolio report generator (generate.py).

The script loads a list of savings-certificate subscriptions, fetches a
valuation for each from the IGCP API, aggregates the results and renders a
fixed HTML report.  The development below embeds the data model and every
operation the specification talks about: the date-adjustment algorithm,
the valuation client's error behaviour, the per-subscription update step of
the main loop, the aggregation and quotient guard, the number formatter and
the HTML rendering.  Numeric values travel through the script as Python
floats; they are embedded as exact rationals, and where a specific float
literal matters (the 1234567.891 formatting example) the corresponding
IEEE-754 double is used as an exact rational.
-/

set_option autoImplicit false

/-- Series enumeration A..F from the source (class AforroSeries). -/
inductive AforroSeries where
  | A | B | C | D | E | F

/-- Calendar date as used by the script: only the year, month and day
components of Python datetime values are ever consulted. -/
structure Date where
  year : Int
  month : Nat
  day : Nat

/-- Subscription record (dataclass Subscription): the three optional value
fields start unset and are written by the main loop after a fetch. -/
structure Subscription where
  series : AforroSeries
  subscription_number : String
  acquisition_date : Date
  units : Int
  unit_value : Option Rat := none
  total_value : Option Rat := none
  acquisition_value : Option Rat := none

/-- IGCPClient._adjust_dates: acquisition request date is the first of the
acquisition month; the value request date is the first of the current month,
or of the previous month when today's day-of-month is below the acquisition
day-of-month (December of the previous year when today is in January). -/
def adjust_dates (date : Date) (acquisition_date : Date) : Date × Date :=
  let d_day := date.day
  let a_day := acquisition_date.day
  let req_acq : Date := ⟨acquisition_date.year, acquisition_date.month, 1⟩
  let req_date : Date :=
    if d_day < a_day then
      if date.month = 1 then ⟨date.year - 1, 12, 1⟩
      else ⟨date.year, date.month - 1, 1⟩
    else ⟨date.year, date.month, 1⟩
  (req_date, req_acq)

/-- First day of a date's month, as the specification words it. -/
def firstOfMonth (d : Date) : Date := ⟨d.year, d.month, 1⟩

/-- First day of the calendar month before a date's month, as the
specification words it (December of the previous year in January). -/
def prevMonthFirst (d : Date) : Date :=
  if d.month = 1 then ⟨d.year - 1, 12, 1⟩ else ⟨d.year, d.month - 1, 1⟩

/-- Date-adjustment operation as described by the specification text, to be
compared with the source-derived adjust_dates. -/
def adjust_dates_spec (today : Date) (acq : Date) : Date × Date :=
  (if today.day < acq.day then prevMonthFirst today else firstOfMonth today,
   firstOfMonth acq)

/-- Strict chronological order on dates (year, then month, then day). -/
def dateLt (x y : Date) : Prop :=
  x.year < y.year ∨
    (x.year = y.year ∧ (x.month < y.month ∨ (x.month = y.month ∧ x.day < y.day)))

instance decidableDateLt (x y : Date) : Decidable (dateLt x y) := by
  unfold dateLt
  exact inferInstance

/-- JSON object of numeric fields, as returned by the IGCP endpoint. -/
abbrev JsonObj : Type := List (String × Rat)

/-- Parsed body of an HTTP response: a JSON array of objects, or anything
else (a non-array JSON document or an unparsable body). -/
inductive ApiBody where
  | arr : List JsonObj → ApiBody
  | nonArray : ApiBody

/-- Outcome of one HTTP GET: transport failure (connection error or the
30-second timeout), or a response with a status code and a body. -/
inductive HttpResult where
  | failure : HttpResult
  | success : Nat → ApiBody → HttpResult

def fieldValueKey : String := "field_value"

def fieldAcqKey : String := "field_acquisition_value"

/-- Dictionary field access on a JSON object. -/
def objGet (key : String) (obj : JsonObj) : Option Rat :=
  (obj.find? (fun p => p.1 == key)).map (fun p => p.2)

/-- IGCPClient.fetch_value on a given HTTP outcome: raise_for_status errors
on 4xx/5xx statuses, then the body must be a JSON array with at least one
element, whose first element is returned unchecked. -/
def fetch_value (r : HttpResult) : Except String JsonObj :=
  match r with
  | HttpResult.failure => Except.error "request failed"
  | HttpResult.success status body =>
    if 400 ≤ status ∧ status < 600 then Except.error "http status error"
    else
      match body with
      | ApiBody.arr (x :: _) => Except.ok x
      | ApiBody.arr [] => Except.error "unexpected response format"
      | ApiBody.nonArray => Except.error "unexpected response format"

/-- Whether an Except result is an error. -/
def isErr (e : Except String JsonObj) : Bool :=
  match e with
  | Except.error _ => true
  | Except.ok _ => false

/-- The body is not a non-empty JSON array. -/
def notNonEmptyArray (b : ApiBody) : Prop :=
  match b with
  | ApiBody.arr (_ :: _) => False
  | ApiBody.arr [] => True
  | ApiBody.nonArray => True

/-- One iteration of the fetch loop in main (lines 189-203): on a fetch
error the subscription is left untouched; otherwise total_value is assigned
from field_value, then acquisition_value from field_acquisition_value, then
unit_value; a missing dictionary key raises at the point of access and the
exception is caught by the surrounding handler, so the assignments made
before the raise survive. -/
def runStep (sub : Subscription) (r : HttpResult) : Subscription :=
  match fetch_value r with
  | Except.error _ => sub
  | Except.ok obj =>
    match objGet fieldValueKey obj with
    | none => sub
    | some tv =>
      let sub1 := { sub with total_value := some tv }
      match objGet fieldAcqKey obj with
      | none => sub1
      | some av =>
        { sub1 with
            acquisition_value := some av,
            unit_value := some (if 0 < sub.units then tv / (sub.units : Rat) else 0) }

/-- Python truthiness of an optional float: None and 0.0 are falsy. -/
def pyTruthy (o : Option Rat) : Bool :=
  match o with
  | none => false
  | some v => decide (v ≠ 0)

/-- Aggregate current value (lines 114 and 210): the generator filters each
subscription by the truthiness of its total_value alone. -/
def total_current_value (subs : List Subscription) : Rat :=
  ((subs.filter (fun s => pyTruthy s.total_value)).map (fun s => s.total_value.getD 0)).sum

/-- Aggregate invested value (lines 115 and 211): filtered by the
truthiness of acquisition_value alone. -/
def total_invested_value (subs : List Subscription) : Rat :=
  ((subs.filter (fun s => pyTruthy s.acquisition_value)).map (fun s => s.acquisition_value.getD 0)).sum

/-- Reported current/invested quotient (lines 118 and 212): guarded by a
strict positivity test on the invested total. -/
def quotientOrZero (subs : List Subscription) : Rat :=
  if 0 < total_invested_value subs then total_current_value subs / total_invested_value subs else 0

/-- Sum of total values over the subscriptions that have both value fields
set, as the specification words the aggregation. -/
def sumTotalsBothSet (subs : List Subscription) : Rat :=
  ((subs.filter (fun s => s.total_value.isSome && s.acquisition_value.isSome)).map
    (fun s => s.total_value.getD 0)).sum

/-- Sum of total values over the subscriptions whose total value is set. -/
def sumTotalsSet (subs : List Subscription) : Rat :=
  ((subs.filter (fun s => s.total_value.isSome)).map (fun s => s.total_value.getD 0)).sum

/-- Sum of acquisition values over the subscriptions whose acquisition
value is set. -/
def sumAcqSet (subs : List Subscription) : Rat :=
  ((subs.filter (fun s => s.acquisition_value.isSome)).map (fun s => s.acquisition_value.getD 0)).sum

/-- Insert a comma before every group of three digits, working over the
reversed digit list; k counts digits emitted since the last separator. -/
def commifyAux : List Char → Nat → List Char
  | [], _ => []
  | c :: cs, k => if k = 3 then ',' :: c :: commifyAux cs 1 else c :: commifyAux cs (k + 1)

/-- Thousands grouping of a digit string with commas. -/
def commify (s : String) : String :=
  String.mk (commifyAux s.toList.reverse 0).reverse

/-- Left-pad a digit string with zeros to a given width. -/
def padZeros (s : String) (d : Nat) : String :=
  String.mk (List.replicate (d - s.length) '0') ++ s

/-- Round a rational to the nearest integer, ties to even: the rounding
Python applies when formatting a float with a fixed number of decimals. -/
def roundHalfEven (q : Rat) : Int :=
  let f := q.floor
  let r := q - (f : Rat)
  if r < 1/2 then f
  else if 1/2 < r then f + 1
  else if f % 2 = 0 then f else f + 1

/-- format_number (line 105-107): Python format spec value:,.Nf, i.e. the
correctly rounded fixed-point decimal of the value with comma thousands
separators and a dot decimal point. -/
def format_number (value : Rat) (decimals : Nat) : String :=
  let a := if value < 0 then -value else value
  let n := (roundHalfEven (a * (10 : Rat) ^ decimals)).toNat
  let p := (10 : Nat) ^ decimals
  let ipart := commify (toString (n / p))
  let s := if decimals = 0 then ipart else ipart ++ "." ++ padZeros (toString (n % p)) decimals
  if value < 0 then "-" ++ s else s

/-- Fixed HTML document text before the embedded quotient. -/
def htmlHead : String :=
  "<!DOCTYPE html>\n<html>\n<head>\n    <title>CA</title>\n</head>\n<style>\nbody \x7b font-family: Arial; font-size: 0.3cm \x7d\n</style>\n\n<body>\n    <h1>CA</h1>\n    <div id=\"currentMarketPrice\" class=\"container\">\n        <h2 class=\"title\">Most Recent Value:</h2>\n        <h3 id=\"currentMarketPrice_value\">"

/-- Fixed HTML document text after the embedded quotient. -/
def htmlTail : String :=
  "</h3>\n    </div>\n</body>\n</html>"

/-- generate_html_report (lines 110-145): the document rendered for a list
of subscriptions, with the quotient formatted to 10 decimals. -/
def generate_html_report (subs : List Subscription) : String :=
  htmlHead ++ format_number (quotientOrZero subs) 10 ++ htmlTail

/-- The IEEE-754 double denoted by the Python literal 1234567.891: the
literal lies in the binade with unit-in-the-last-place 2 ^ (-32), and
1234567.891 * 2 ^ 32 = 5302428716536692736 / 1000 = 5302428716536692.736,
which rounds to the significand 5302428716536693. -/
def pyDouble1234567891 : Rat := 5302428716536693 / 4294967296

/-- Sanity check for the double model: it exceeds the decimal literal and
lies within half an ulp (1 / 2 ^ 33) of it, so it is the nearest double. -/
lemma pyDouble_within_half_ulp :
    (1234567891 : Rat) / 1000 < pyDouble1234567891 ∧
    pyDouble1234567891 - 1234567891 / 1000 < 1 / 8589934592 := by
  constructor <;> norm_num [pyDouble1234567891]

set_option maxRecDepth 8192 in
unseal Rat.mul Rat.add Rat.sub Rat.inv in
/-- Sanity check: on the exact decimal 1234567.891 (rather than the double
the program actually holds) the formatter returns the digits the
specification quotes. -/
lemma format_number_exact_decimal :
    format_number ((1234567891 : Rat) / 1000) 10 = "1,234,567.8910000000" := by
  decide

/-- Helper: filtering by Python truthiness instead of by presence does not
change a sum of optional values, because the extra elements dropped by the
truthiness filter are exactly the zeros. -/
lemma sum_filter_truthy_eq (f : Subscription → Option Rat) (l : List Subscription) :
    ((l.filter (fun s => pyTruthy (f s))).map (fun s => (f s).getD 0)).sum
      = ((l.filter (fun s => (f s).isSome)).map (fun s => (f s).getD 0)).sum := by
  induction l with
  | nil => rfl
  | cons s l ih =>
    cases hfs : f s with
    | none =>
      have hc : pyTruthy (f s) = false := by rw [hfs]; rfl
      have hp : (f s).isSome = false := by rw [hfs]; rfl
      simp [List.filter_cons, hc, hp, ih]
    | some v =>
      have hp : (f s).isSome = true := by rw [hfs]; rfl
      by_cases hv : v = 0
      · have hc : pyTruthy (f s) = false := by
          rw [hfs, hv]
          simp [pyTruthy]
        have hz : (f s).getD 0 = 0 := by rw [hfs, hv]; rfl
        simp [List.filter_cons, hc, hp, hz, ih]
      · have hc : pyTruthy (f s) = true := by
          rw [hfs]
          simp [pyTruthy, hv]
        simp [List.filter_cons, hc, hp, ih]

/-- Claim C1: for every pair of dates, adjust_dates returns the acquisition
request date as the first day of the acquisition date's month and year, and
the value request date by comparing only day-of-month values: the first of
the previous calendar month (December of the previous year in January) when
today's day-of-month is strictly below the acquisition day-of-month, and
the first of today's month otherwise. -/
theorem adjust_dates_matches_spec : ∀ (d a : Date), adjust_dates d a = adjust_dates_spec d a :=
  fun _ _ => rfl

/-- Claim C9: whenever the acquisition date lies in the same month and year
as today (with a valid month) and today's day-of-month is strictly below
the acquisition day-of-month, the value request date returned by
adjust_dates is strictly earlier than the acquisition request date, because
only day-of-month values are compared. -/
theorem value_request_precedes_acquisition_request
    (d a : Date) (hy : d.year = a.year) (hm : d.month = a.month)
    (hd : d.day < a.day) (h1 : 1 ≤ d.month) :
    dateLt (adjust_dates d a).1 (adjust_dates d a).2 := by
  have h2 : (adjust_dates d a).2 = ⟨a.year, a.month, 1⟩ := rfl
  by_cases hm1 : d.month = 1
  · have hval : (adjust_dates d a).1 = ⟨d.year - 1, 12, 1⟩ := by
      simp [adjust_dates, hd, hm1]
    unfold dateLt
    rw [hval, h2]
    exact Or.inl (show d.year - 1 < a.year by omega)
  · have hval : (adjust_dates d a).1 = ⟨d.year, d.month - 1, 1⟩ := by
      simp [adjust_dates, hd, hm1]
    unfold dateLt
    rw [hval, h2]
    exact Or.inr ⟨show d.year = a.year from hy,
      Or.inl (show d.month - 1 < a.month by omega)⟩

/-- Witness for C9 at a concrete input: today 2024-05-10 against an
acquisition date of 2024-05-15. -/
theorem value_request_precedes_acquisition_request_witness :
    (10 : Nat) < 15 ∧
    dateLt (adjust_dates (⟨2024, 5, 10⟩ : Date) ⟨2024, 5, 15⟩).1
      (adjust_dates (⟨2024, 5, 10⟩ : Date) ⟨2024, 5, 15⟩).2 :=
  ⟨by decide,
   value_request_precedes_acquisition_request ⟨2024, 5, 10⟩ ⟨2024, 5, 15⟩ rfl rfl
     (by decide) (by decide)⟩

set_option maxRecDepth 8192 in
unseal Rat.mul Rat.add Rat.sub Rat.inv in
/-- Claim C2, counterexample: a subscription with total_value set but
acquisition_value unset (the state the main loop leaves behind when the
response lacks field_acquisition_value) contributes to the current total,
so the reported current total differs from the sum over subscriptions with
both fields set. -/
theorem total_sums_both_set_refuted :
    (⟨AforroSeries.A, "O1", ⟨2020, 3, 2⟩, 1, none, some 5, none⟩ : Subscription).acquisition_value
        = none ∧
    total_current_value [⟨AforroSeries.A, "O1", ⟨2020, 3, 2⟩, 1, none, some 5, none⟩]
      ≠ sumTotalsBothSet [⟨AforroSeries.A, "O1", ⟨2020, 3, 2⟩, 1, none, some 5, none⟩] := by
  constructor
  · rfl
  · decide

/-- Claim C2 as amended: the reported current total is the sum of total
values over the subscriptions whose total value is set, and the reported
invested total is the sum of acquisition values over the subscriptions
whose acquisition value is set; the two filters are independent of each
other. -/
theorem total_sums_filter_per_field (subs : List Subscription) :
    total_current_value subs = sumTotalsSet subs ∧
    total_invested_value subs = sumAcqSet subs :=
  ⟨sum_filter_truthy_eq (fun s => s.total_value) subs,
   sum_filter_truthy_eq (fun s => s.acquisition_value) subs⟩

/-- Claim C3: evaluation of the main-loop step on a fresh subscription and
a well-formed response whose first element carries field_value but lacks
field_acquisition_value: total_value is assigned before the missing-key
error is raised, so it ends up set while the other two fields stay unset,
contradicting the populated-together-or-not-at-all invariant. -/
theorem missing_acq_field_partial_population :
    (runStep ⟨AforroSeries.A, "0001", ⟨2023, 3, 15⟩, 10, none, none, none⟩
        (HttpResult.success 200 (ApiBody.arr [[(fieldValueKey, 100)]]))).total_value
      = some 100 ∧
    (runStep ⟨AforroSeries.A, "0001", ⟨2023, 3, 15⟩, 10, none, none, none⟩
        (HttpResult.success 200 (ApiBody.arr [[(fieldValueKey, 100)]]))).acquisition_value
      = none ∧
    (runStep ⟨AforroSeries.A, "0001", ⟨2023, 3, 15⟩, 10, none, none, none⟩
        (HttpResult.success 200 (ApiBody.arr [[(fieldValueKey, 100)]]))).unit_value
      = none :=
  ⟨rfl, rfl, rfl⟩

/-- Claim C4, counterexample: a 200 response whose body is a JSON array
with an empty first element makes fetch_value return that element
successfully even though both expected value fields are absent, so absence
of the fields does not make the fetch operation fail. -/
theorem fetch_value_missing_fields_no_error :
    fetch_value (HttpResult.success 200 (ApiBody.arr [[]])) = Except.ok [] ∧
    objGet fieldValueKey [] = none ∧ objGet fieldAcqKey [] = none :=
  ⟨rfl, rfl, rfl⟩

/-- Failure condition the specification enumerates for the fetch: the HTTP
call errors or times out, the status indicates failure, or the response is
not a non-empty JSON array. -/
def fetchFails (r : HttpResult) : Prop :=
  match r with
  | HttpResult.failure => True
  | HttpResult.success s b => (400 ≤ s ∧ s < 600) ∨ notNonEmptyArray b

/-- Claim C4 as amended: fetch_value fails exactly when the HTTP call
errors or times out, the status code is in the failure range 400-599, or
the body is not a non-empty JSON array; field absence in the first element
is not checked by fetch_value. -/
theorem fetch_value_error_iff (r : HttpResult) :
    isErr (fetch_value r) = true ↔ fetchFails r := by
  cases r with
  | failure => simp [fetch_value, isErr, fetchFails]
  | success s b =>
    by_cases hs : 400 ≤ s ∧ s < 600
    · simp [fetch_value, isErr, fetchFails, hs]
    · cases b with
      | nonArray => simp [fetch_value, isErr, fetchFails, hs, notNonEmptyArray]
      | arr l =>
        cases l with
        | nil => simp [fetch_value, isErr, fetchFails, hs, notNonEmptyArray]
        | cons x xs => simp [fetch_value, isErr, fetchFails, hs, notNonEmptyArray]

set_option maxRecDepth 8192 in
unseal Rat.mul Rat.add Rat.sub Rat.inv in
/-- Claim C5, counterexample: with one subscription whose fetched values
are total 1 and acquisition -1 the invested total is -1, which is nonzero,
yet the reported quotient is the guard value 0 instead of 1 / -1, because
the code guards on strict positivity rather than on zero. -/
theorem quotient_guard_negative_refuted :
    total_invested_value [⟨AforroSeries.A, "N1", ⟨2020, 1, 2⟩, 1, none, some 1, some (-1)⟩]
        ≠ 0 ∧
    quotientOrZero [⟨AforroSeries.A, "N1", ⟨2020, 1, 2⟩, 1, none, some 1, some (-1)⟩]
      ≠ total_current_value [⟨AforroSeries.A, "N1", ⟨2020, 1, 2⟩, 1, none, some 1, some (-1)⟩]
        / total_invested_value [⟨AforroSeries.A, "N1", ⟨2020, 1, 2⟩, 1, none, some 1, some (-1)⟩] := by
  constructor <;> decide

/-- Claim C5 as amended: the reported quotient equals current over invested
whenever the invested total is strictly positive, and is the defined value
0 whenever the invested total is zero or negative, with no crash. -/
theorem quotient_guard_rule (subs : List Subscription) :
    (0 < total_invested_value subs →
      quotientOrZero subs = total_current_value subs / total_invested_value subs) ∧
    (total_invested_value subs ≤ 0 → quotientOrZero subs = 0) := by
  constructor
  · intro h
    simp [quotientOrZero, h]
  · intro h
    simp [quotientOrZero, not_lt.mpr h]

/-- Witness for C5 at a concrete input: the empty subscription list has
invested total 0 and reported quotient 0. -/
theorem quotient_guard_rule_witness :
    total_invested_value [] ≤ 0 ∧ quotientOrZero [] = 0 :=
  ⟨by decide, (quotient_guard_rule []).2 (by decide)⟩

/-- Claim C6: when a fetch succeeds and the first response element carries
both expected fields, the main-loop step computes the unit value as the
fetched total divided by the unit count when the unit count is positive,
and as 0 otherwise; the recorded total is the fetched total. -/
theorem unit_value_guarded_quotient
    (sub : Subscription) (r : HttpResult) (obj : JsonObj) (tv av : Rat)
    (hr : fetch_value r = Except.ok obj)
    (htv : objGet fieldValueKey obj = some tv)
    (hav : objGet fieldAcqKey obj = some av) :
    (runStep sub r).unit_value = some (if 0 < sub.units then tv / (sub.units : Rat) else 0) ∧
    (runStep sub r).total_value = some tv := by
  simp [runStep, hr, htv, hav]

/-- Witness for C6 at a concrete input: a subscription with 4 units and a
response with total 100 and acquisition 90 yields unit value 25. -/
theorem unit_value_guarded_quotient_witness :
    fetch_value (HttpResult.success 200 (ApiBody.arr [[(fieldValueKey, 100), (fieldAcqKey, 90)]]))
        = Except.ok [(fieldValueKey, 100), (fieldAcqKey, 90)] ∧
    ((runStep ⟨AforroSeries.A, "CA01", ⟨2021, 6, 15⟩, 4, none, none, none⟩
          (HttpResult.success 200 (ApiBody.arr [[(fieldValueKey, 100), (fieldAcqKey, 90)]]))).unit_value
        = some (if 0 < (⟨AforroSeries.A, "CA01", ⟨2021, 6, 15⟩, 4, none, none, none⟩ : Subscription).units
            then 100 / ((⟨AforroSeries.A, "CA01", ⟨2021, 6, 15⟩, 4, none, none, none⟩ : Subscription).units : Rat)
            else 0) ∧
      (runStep ⟨AforroSeries.A, "CA01", ⟨2021, 6, 15⟩, 4, none, none, none⟩
          (HttpResult.success 200 (ApiBody.arr [[(fieldValueKey, 100), (fieldAcqKey, 90)]]))).total_value
        = some 100) :=
  ⟨rfl,
   unit_value_guarded_quotient ⟨AforroSeries.A, "CA01", ⟨2021, 6, 15⟩, 4, none, none, none⟩
     (HttpResult.success 200 (ApiBody.arr [[(fieldValueKey, 100), (fieldAcqKey, 90)]]))
     [(fieldValueKey, 100), (fieldAcqKey, 90)] 100 90 rfl rfl rfl⟩

set_option maxRecDepth 8192 in
unseal Rat.mul Rat.add Rat.sub Rat.inv in
/-- Claim C7: with zero subscriptions both aggregate totals are 0, the
reported quotient is 0, and the HTML report is still produced, embedding
the ten-decimal rendering of 0. -/
theorem empty_config_report :
    total_current_value [] = 0 ∧ total_invested_value [] = 0 ∧ quotientOrZero [] = 0 ∧
    generate_html_report [] = htmlHead ++ "0.0000000000" ++ htmlTail := by
  refine ⟨rfl, rfl, rfl, ?_⟩
  decide

set_option maxRecDepth 8192 in
unseal Rat.mul Rat.add Rat.sub Rat.inv in
/-- Claim C8, counterexample: at 10 decimal places the formatter applied to
the double the program holds for 1234567.891 does not return the digits
1,234,567.8910000000 quoted by the specification. -/
theorem format_number_ten_decimals_refuted :
    format_number pyDouble1234567891 10 ≠ "1,234,567.8910000000" := by
  decide

set_option maxRecDepth 8192 in
unseal Rat.mul Rat.add Rat.sub Rat.inv in
/-- Claim C8 as amended: applied to the IEEE-754 double denoted by the
literal 1234567.891, the formatter returns 1,234,567.89 at 2 decimal places
and 1,234,567.8910000001 at 10 decimal places: the double exceeds the
decimal literal by 33 / 536870912000, which is about 6.15e-11 and flips the
tenth decimal digit upward on rounding. -/
theorem format_number_at_double_literal :
    format_number pyDouble1234567891 2 = "1,234,567.89" ∧
    format_number pyDouble1234567891 10 = "1,234,567.8910000001" := by
  constructor <;> decide

/-- Claim C10: a subscription whose total value is exactly 0 contributes
nothing to the aggregate current value, and one whose acquisition value is
exactly 0 contributes nothing to the aggregate invested value: the
truthiness filter drops a 0.0 field like an unset one. -/
theorem zero_valued_fields_excluded
    (s t : Subscription) (subs : List Subscription)
    (hs : s.total_value = some 0) (ht : t.acquisition_value = some 0) :
    total_current_value (s :: subs) = total_current_value subs ∧
    total_invested_value (t :: subs) = total_invested_value subs := by
  have hcs : pyTruthy s.total_value = false := by
    rw [hs]
    simp [pyTruthy]
  have hct : pyTruthy t.acquisition_value = false := by
    rw [ht]
    simp [pyTruthy]
  constructor
  · simp [total_current_value, List.filter_cons, hcs]
  · simp [total_invested_value, List.filter_cons, hct]

/-- Witness for C10 at concrete inputs: prepending a zero-valued
subscription to a one-element list leaves both aggregates unchanged. -/
theorem zero_valued_fields_excluded_witness :
    (⟨AforroSeries.A, "Z1", ⟨2021, 2, 1⟩, 1, none, some 0, none⟩ : Subscription).total_value
        = some 0 ∧
    (total_current_value
        (⟨AforroSeries.A, "Z1", ⟨2021, 2, 1⟩, 1, none, some 0, none⟩
          :: [⟨AforroSeries.C, "Z3", ⟨2021, 2, 1⟩, 1, none, some 7, some 3⟩])
        = total_current_value [⟨AforroSeries.C, "Z3", ⟨2021, 2, 1⟩, 1, none, some 7, some 3⟩] ∧
      total_invested_value
        (⟨AforroSeries.B, "Z2", ⟨2021, 2, 1⟩, 1, none, none, some 0⟩
          :: [⟨AforroSeries.C, "Z3", ⟨2021, 2, 1⟩, 1, none, some 7, some 3⟩])
        = total_invested_value [⟨AforroSeries.C, "Z3", ⟨2021, 2, 1⟩, 1, none, some 7, some 3⟩]) :=
  ⟨rfl,
   zero_valued_fields_excluded
     ⟨AforroSeries.A, "Z1", ⟨2021, 2, 1⟩, 1, none, some 0, none⟩
     ⟨AforroSeries.B, "Z2", ⟨2021, 2, 1⟩, 1, none, none, some 0⟩
     [⟨AforroSeries.C, "Z3", ⟨2021, 2, 1⟩, 1, none, some 7, some 3⟩] rfl rfl⟩
